import Mathlib

/-!
Formal model of the EmergencyMeshChat multi-transport messaging core
(`src/app.js`) and of the emergencies persistence server.

Pure data and control flow of the JavaScript source are embedded as
executable Lean definitions: registries become lists, JS `Map` contents
become key lists without duplicates, transport callbacks become events of
an inductive type folded over a state, and thrown-and-caught exceptions
become `Bool`/`Option` results.  Machine-level concerns (actual radio I/O,
DOM rendering, wall-clock waiting) are represented by the data they
produce: frames carry the simulated send instant, timers carry their
scheduled fire instant.
-/

/- ====================================================================
   Constrained-transport write path: `writeBluetoothMessage` (app.js
   316-340).  The payload is already UTF-8 encoded (a byte list).  If it
   fits in the 20-byte MTU it is written as a single frame; otherwise it
   is sliced into consecutive 20-byte chunks, each written and then
   followed by a 50 ms delay.  Each produced pair is
   (send instant in ms relative to the first write, frame bytes).
   ==================================================================== -/

def btMtu : Nat := 20

def btChunkDelayMs : Nat := 50

def chunkWrites (t : Nat) (l : List Nat) : List (Nat × List Nat) :=
  if h : l = [] then []
  else (t, l.take btMtu) :: chunkWrites (t + btChunkDelayMs) (l.drop btMtu)
termination_by l.length
decreasing_by
  simp only [List.length_drop]
  exact Nat.sub_lt (List.length_pos.mpr h) (by decide)

def writeBluetoothMessage (bytes : List Nat) : List (Nat × List Nat) :=
  if bytes.length ≤ btMtu then [(0, bytes)]
  else chunkWrites 0 bytes

theorem chunkWrites_length (t : Nat) (l : List Nat) :
    (chunkWrites t l).length = (l.length + 19) / 20 := by
  induction t, l using chunkWrites.induct with
  | case1 t => simp [chunkWrites]
  | case2 t l h ih =>
    rw [chunkWrites]
    simp only [h, dif_neg, not_false_iff, List.length_cons, ih, List.length_drop]
    have hpos : 0 < l.length := List.length_pos.mpr h
    rcases le_or_lt l.length 20 with hle | hgt
    · have h1 : l.length - btMtu = 0 := by simp only [btMtu]; omega
      rw [h1]
      simp only [btMtu, Nat.zero_add]
      omega
    · have h1 : l.length - btMtu + 19 = l.length - 1 := by simp only [btMtu]; omega
      rw [h1]
      have h2 : l.length + 19 = (l.length - 1) + 20 := by omega
      rw [h2, Nat.add_div_right _ (by decide : 0 < 20)]

theorem chunkWrites_flatten (t : Nat) (l : List Nat) :
    ((chunkWrites t l).map Prod.snd).flatten = l := by
  induction t, l using chunkWrites.induct with
  | case1 t => simp [chunkWrites]
  | case2 t l h ih =>
    rw [chunkWrites]
    simp only [h, dif_neg, not_false_iff, List.map_cons, List.flatten_cons, ih]
    exact List.take_append_drop btMtu l

theorem chunkWrites_frame_le (t : Nat) (l : List Nat) :
    ∀ f ∈ (chunkWrites t l).map Prod.snd, f.length ≤ 20 := by
  induction t, l using chunkWrites.induct with
  | case1 t => simp [chunkWrites]
  | case2 t l h ih =>
    rw [chunkWrites]
    simp only [h, dif_neg, not_false_iff, List.map_cons, List.mem_cons]
    rintro f (rfl | hf)
    · simpa [btMtu] using List.length_take_le btMtu l
    · exact ih f hf

theorem chunkWrites_map_fst (t : Nat) (l : List Nat) :
    (chunkWrites t l).map Prod.fst
      = (List.range (chunkWrites t l).length).map (fun i => t + 50 * i) := by
  induction t, l using chunkWrites.induct with
  | case1 t => simp [chunkWrites]
  | case2 t l h ih =>
    rw [chunkWrites]
    simp only [h, dif_neg, not_false_iff, List.map_cons, List.length_cons]
    rw [List.range_succ_eq_map, List.map_cons, List.map_map, ih]
    rw [List.cons_eq_cons]
    refine ⟨by omega, ?_⟩
    apply List.map_congr_left
    intro i _
    simp only [Function.comp_apply, btChunkDelayMs]
    omega

/-- Claim C1: writing a payload of L (≥ 1) UTF-8 bytes over the Bluetooth
transport produces exactly ceil(L/20) frames, each at most 20 bytes, whose
concatenation in order is the original payload; frame i is sent at instant
50·i ms, so consecutive frames are spaced by exactly 50 ms; and a payload
of at most 20 bytes is sent as exactly one unsegmented frame. -/
theorem writeBluetoothMessage_segmentation (bytes : List Nat)
    (hL : 1 ≤ bytes.length) :
    (writeBluetoothMessage bytes).length = (bytes.length + 19) / 20 ∧
    (∀ f ∈ (writeBluetoothMessage bytes).map Prod.snd, f.length ≤ 20) ∧
    ((writeBluetoothMessage bytes).map Prod.snd).flatten = bytes ∧
    (writeBluetoothMessage bytes).map Prod.fst
      = (List.range (writeBluetoothMessage bytes).length).map (fun i => 50 * i) ∧
    (bytes.length ≤ 20 → writeBluetoothMessage bytes = [(0, bytes)]) := by
  unfold writeBluetoothMessage
  by_cases hle : bytes.length ≤ btMtu
  · rw [if_pos hle]
    refine ⟨?_, ?_, ?_, ?_, fun _ => rfl⟩
    · simp only [btMtu] at hle
      simp only [List.length_singleton]
      omega
    · intro f hf
      simp only [List.map_cons, List.map_nil, List.mem_singleton] at hf
      subst hf
      simpa [btMtu] using hle
    · simp
    · simp [List.range_succ]
  · rw [if_neg hle]
    refine ⟨chunkWrites_length 0 bytes, chunkWrites_frame_le 0 bytes,
      chunkWrites_flatten 0 bytes, ?_, ?_⟩
    · rw [chunkWrites_map_fst 0 bytes]
      apply List.map_congr_left
      intro i _
      omega
    · intro hc
      exact absurd hc (by simpa [btMtu] using hle)

def c1DemoBytes : List Nat := List.replicate 45 65

/-- Concrete instantiation of the C1 segmentation theorem on a 45-byte
payload. -/
theorem writeBluetoothMessage_segmentation_witness :
    (writeBluetoothMessage c1DemoBytes).length = 3 ∧
    ((writeBluetoothMessage c1DemoBytes).map Prod.snd).flatten = c1DemoBytes := by
  have h := writeBluetoothMessage_segmentation c1DemoBytes (by decide)
  exact ⟨by rw [h.1]; decide, h.2.2.1⟩

/- ====================================================================
   Application session state (the EmergencyMeshChat instance fields that
   the delivery-fanout operations read and write):
   - `connections`         : the direct (WebRTC) registry, app.js line 4;
   - `bluetoothConnections`: the constrained registry, app.js line 5;
   - `displayed`           : ids of locally rendered messages
                             (displayMessage / displayEmergencyAlert).
   Each registered connection carries the outcome its `send` would have
   (`sendOk = false` means `send` throws, which the fanout catches), and
   direct connections carry the `connection.open` flag read by the
   quality probe.
   ==================================================================== -/

structure RtcConn where
  peerId : String
  isOpen : Bool
  sendOk : Bool
deriving DecidableEq

structure BtConn where
  deviceId : String
  sendOk : Bool
deriving DecidableEq

structure AppState where
  connections : List RtcConn
  bluetoothConnections : List BtConn
  displayed : List String
deriving DecidableEq

/-- Model of `getTotalConnections` (app.js 651-653). -/
def getTotalConnections (s : AppState) : Nat :=
  s.connections.length + s.bluetoothConnections.length

/-- One fanout pass over both registries (the two send loops shared by
`sendMessage`, `sendEmergencyAlert` and `sendFile`): every connection is
attempted; a throwing `send` is caught and logged, recorded here as a
`false` second component. -/
def fanoutAttempts (s : AppState) : List (String × Bool) :=
  s.connections.map (fun c => (c.peerId, c.sendOk))
    ++ s.bluetoothConnections.map (fun c => (c.deviceId, c.sendOk))

structure ChatMessage where
  mtype : String
  content : String
  sender : String
  timestamp : Nat
  mid : String
deriving DecidableEq

inductive SendOutcome where
  | emptyInput
  | warned (msg : String)
  | sent (message : ChatMessage) (attempts : List (String × Bool)) (reported : Nat)
deriving DecidableEq

/-- Model of `sendMessage` (app.js 694-736): trim/empty guard, `getTotalConnections`
guard with a warning toast, message construction, fanout over both
registries with per-connection try/catch, local display, and the
`Message sent to N device(s)` toast whose N was read before the loops. -/
def sendMessage (s : AppState) (deviceName : String) (now : Nat) (mid : String)
    (text : String) : AppState × SendOutcome :=
  if text = "" then (s, SendOutcome.emptyInput)
  else if getTotalConnections s = 0 then
    (s, SendOutcome.warned "No devices connected to send message")
  else
    ({ s with displayed := mid :: s.displayed },
      SendOutcome.sent ⟨"message", text, deviceName, now, mid⟩
        (fanoutAttempts s) (getTotalConnections s))

structure GeoLocation where
  latitude : Option Int
  longitude : Option Int
  accuracy : Option Int
deriving DecidableEq

inductive GeoResult where
  | available (lat lon acc : Int)
  | denied
  | unavailable
deriving DecidableEq

/-- Model of `getCurrentLocation` (app.js 860-882): resolves coordinates on
success; resolves `{latitude: null, longitude: null, accuracy: null}` when
geolocation is absent from the browser or the position callback errors
(denied / timeout).  It never rejects. -/
def getCurrentLocation : GeoResult → GeoLocation
  | GeoResult.available lat lon acc => ⟨some lat, some lon, some acc⟩
  | GeoResult.denied => ⟨none, none, none⟩
  | GeoResult.unavailable => ⟨none, none, none⟩

structure EmergencyMessage where
  mtype : String
  content : String
  sender : String
  timestamp : Nat
  location : GeoLocation
  mid : String
deriving DecidableEq

inductive EmergencyOutcome where
  | warned (msg : String)
  | sent (message : EmergencyMessage) (attempts : List (String × Bool)) (reported : Nat)
deriving DecidableEq

/-- Model of `sendEmergencyAlert` (app.js 738-773): `getTotalConnections` guard
with a warning toast, emergency message construction embedding the
awaited `getCurrentLocation` result, fanout over both registries with
per-connection try/catch, local display, and the reporting toast. -/
def sendEmergencyAlert (s : AppState) (deviceName : String) (now : Nat)
    (geo : GeoResult) (mid : String) : AppState × EmergencyOutcome :=
  if getTotalConnections s = 0 then
    (s, EmergencyOutcome.warned "No devices connected for emergency alert")
  else
    ({ s with displayed := mid :: s.displayed },
      EmergencyOutcome.sent
        ⟨"emergency", "EMERGENCY ALERT: Assistance needed at this location",
          deviceName, now, getCurrentLocation geo, mid⟩
        (fanoutAttempts s) (getTotalConnections s))

theorem length_filter_add_length_filter_neg {α : Type} (l : List α) (p : α → Bool) :
    (l.filter p).length + (l.filter (fun a => !(p a))).length = l.length := by
  induction l with
  | nil => rfl
  | cons a t ih =>
    cases h : p a <;> simp [List.filter_cons, h] <;> omega

/-- Claim C2: broadcasting a chat message over the N registered
connections of which K fail still attempts every one of the N (each
per-connection failure is caught), succeeds on the other N−K, and the
count reported to the user is N regardless of K. -/
theorem sendMessage_fanout (s : AppState) (deviceName : String) (now : Nat)
    (mid : String) (text : String) (ht : text ≠ "")
    (hc : getTotalConnections s ≠ 0) :
    ∃ msg attempts,
      (sendMessage s deviceName now mid text).2
        = SendOutcome.sent msg attempts (getTotalConnections s) ∧
      attempts.map Prod.fst
        = s.connections.map RtcConn.peerId
            ++ s.bluetoothConnections.map BtConn.deviceId ∧
      (attempts.filter (fun a => a.2)).length
        = getTotalConnections s - (attempts.filter (fun a => !a.2)).length := by
  refine ⟨⟨"message", text, deviceName, now, mid⟩, fanoutAttempts s, ?_, ?_, ?_⟩
  · simp [sendMessage, ht, hc]
  · simp only [fanoutAttempts, List.map_append, List.map_map]
    rfl
  · have h1 := length_filter_add_length_filter_neg (fanoutAttempts s)
      (fun a => a.2)
    have h2 : (fanoutAttempts s).length = getTotalConnections s := by
      simp [fanoutAttempts, getTotalConnections]
    omega

/-- Concrete instantiation of the C2 fanout theorem: two direct
connections (one failing) and one constrained connection. -/
theorem sendMessage_fanout_witness :
    ∃ msg attempts,
      (sendMessage
          ⟨[⟨"p1", true, true⟩, ⟨"p2", true, false⟩], [⟨"d1", true⟩], []⟩
          "Emergency Device" 7 "m1" "hello").2
        = SendOutcome.sent msg attempts 3 ∧
      attempts.map Prod.fst = ["p1", "p2"] ++ ["d1"] ∧
      (attempts.filter (fun a => a.2)).length
        = 3 - (attempts.filter (fun a => !a.2)).length :=
  sendMessage_fanout
    ⟨[⟨"p1", true, true⟩, ⟨"p2", true, false⟩], [⟨"d1", true⟩], []⟩
    "Emergency Device" 7 "m1" "hello" (by decide) (by decide)

/-- Claim C5: with zero total connections, both `sendMessage` (on a
non-empty input) and `sendEmergencyAlert` return the state unchanged —
registries and message display untouched, no message constructed — and
surface a warning outcome rather than raising an exception. -/
theorem zero_connections_noop (s : AppState) (deviceName : String)
    (now : Nat) (mid : String) (text : String) (geo : GeoResult)
    (ht : text ≠ "") (h : getTotalConnections s = 0) :
    sendMessage s deviceName now mid text
      = (s, SendOutcome.warned "No devices connected to send message") ∧
    sendEmergencyAlert s deviceName now geo mid
      = (s, EmergencyOutcome.warned "No devices connected for emergency alert") := by
  constructor
  · simp [sendMessage, ht, h]
  · simp [sendEmergencyAlert, h]

/-- Concrete instantiation of the C5 no-op theorem on the empty
registries. -/
theorem zero_connections_noop_witness :
    sendMessage ⟨[], [], ["old"]⟩ "Emergency Device" 3 "m2" "hi"
      = (⟨[], [], ["old"]⟩, SendOutcome.warned "No devices connected to send message") ∧
    sendEmergencyAlert ⟨[], [], ["old"]⟩ "Emergency Device" 3 GeoResult.denied "m2"
      = (⟨[], [], ["old"]⟩,
          EmergencyOutcome.warned "No devices connected for emergency alert") :=
  zero_connections_noop ⟨[], [], ["old"]⟩ "Emergency Device" 3 "m2" "hi"
    GeoResult.denied (by decide) (by decide)

/-- Claim C6: an emergency alert sent while geolocation is denied or
unavailable carries `location = {latitude: null, longitude: null,
accuracy: null}` and the broadcast still completes: every registered
connection (direct and constrained) is attempted and the reported count
is the full registry size. -/
theorem emergency_alert_null_location (s : AppState) (deviceName : String)
    (now : Nat) (mid : String) (geo : GeoResult)
    (hg : geo = GeoResult.denied ∨ geo = GeoResult.unavailable)
    (hc : getTotalConnections s ≠ 0) :
    ∃ msg attempts,
      (sendEmergencyAlert s deviceName now geo mid).2
        = EmergencyOutcome.sent msg attempts (getTotalConnections s) ∧
      msg.location = ⟨none, none, none⟩ ∧
      attempts.map Prod.fst
        = s.connections.map RtcConn.peerId
            ++ s.bluetoothConnections.map BtConn.deviceId := by
  refine ⟨⟨"emergency", "EMERGENCY ALERT: Assistance needed at this location",
      deviceName, now, getCurrentLocation geo, mid⟩, fanoutAttempts s, ?_, ?_, ?_⟩
  · simp [sendEmergencyAlert, hc]
  · rcases hg with rfl | rfl <;> rfl
  · simp only [fanoutAttempts, List.map_append, List.map_map]
    rfl

/-- Concrete instantiation of the C6 theorem: geolocation denied, one
direct and one constrained connection. -/
theorem emergency_alert_null_location_witness :
    ∃ msg attempts,
      (sendEmergencyAlert ⟨[⟨"p1", true, true⟩], [⟨"d1", true⟩], []⟩
          "Emergency Device" 9 GeoResult.denied "m3").2
        = EmergencyOutcome.sent msg attempts 2 ∧
      msg.location = ⟨none, none, none⟩ ∧
      attempts.map Prod.fst = ["p1"] ++ ["d1"] :=
  emergency_alert_null_location ⟨[⟨"p1", true, true⟩], [⟨"d1", true⟩], []⟩
    "Emergency Device" 9 "m3" GeoResult.denied (Or.inl rfl) (by decide)

/- ====================================================================
   File sending: `sendFile` (app.js 1217-1284).  The selected file is
   base64-encoded; direct connections receive the full `file` message
   including the data, constrained connections receive only a
   `file-notification` message with name/size/type and a text note.
   ==================================================================== -/

structure FileInfo where
  name : String
  size : Nat
  ftype : String
  dataB64 : String
deriving DecidableEq

structure FileMessage where
  mtype : String
  fileName : String
  fileSize : Nat
  fileType : String
  fdata : Option String
  sender : String
  timestamp : Nat
  note : Option String
  mid : String
deriving DecidableEq

inductive FileOutcome where
  | noFile
  | warned (msg : String)
  | sent (perConn : List (String × FileMessage)) (reported : Nat)
deriving DecidableEq

/-- Model of `sendFile` (app.js 1217-1284): missing-file guard, connection-count
guard with a warning toast, construction of the full `file` message and
of the data-free `file-notification`, fanout sending the former on every
direct connection and the latter on every constrained connection, local
display and the reporting toast. -/
def sendFile (s : AppState) (deviceName : String) (now : Nat) (mid : String)
    (file : Option FileInfo) : AppState × FileOutcome :=
  match file with
  | none => (s, FileOutcome.noFile)
  | some f =>
    if getTotalConnections s = 0 then
      (s, FileOutcome.warned "No devices connected to send file")
    else
      let fileMsg : FileMessage :=
        ⟨"file", f.name, f.size, f.ftype, some f.dataB64, deviceName, now, none, mid⟩
      let noticeMsg : FileMessage :=
        ⟨"file-notification", f.name, f.size, f.ftype, none, deviceName, now,
          some ("File \"" ++ f.name ++ "\" shared via WebRTC"), mid⟩
      ({ s with displayed := mid :: s.displayed },
        FileOutcome.sent
          (s.connections.map (fun c => (c.peerId, fileMsg))
            ++ s.bluetoothConnections.map (fun c => (c.deviceId, noticeMsg)))
          (getTotalConnections s))

/-- Claim C10: a file send with at least one registered connection gives
every direct connection the full `file` message including the base64 data,
and every constrained connection only a `file-notification` carrying the
file name, size, type and a text note — never the file contents. -/
theorem sendFile_per_transport (s : AppState) (deviceName : String)
    (now : Nat) (mid : String) (f : FileInfo)
    (hc : getTotalConnections s ≠ 0) :
    ∃ fm nm : FileMessage,
      (sendFile s deviceName now mid (some f)).2
        = FileOutcome.sent
            (s.connections.map (fun c => (c.peerId, fm))
              ++ s.bluetoothConnections.map (fun c => (c.deviceId, nm)))
            (getTotalConnections s) ∧
      fm.mtype = "file" ∧ fm.fileName = f.name ∧ fm.fileSize = f.size ∧
      fm.fileType = f.ftype ∧ fm.fdata = some f.dataB64 ∧
      nm.mtype = "file-notification" ∧ nm.fileName = f.name ∧
      nm.fileSize = f.size ∧ nm.fileType = f.ftype ∧ nm.fdata = none ∧
      nm.note = some ("File \"" ++ f.name ++ "\" shared via WebRTC") := by
  refine ⟨⟨"file", f.name, f.size, f.ftype, some f.dataB64, deviceName, now, none, mid⟩,
    ⟨"file-notification", f.name, f.size, f.ftype, none, deviceName, now,
      some ("File \"" ++ f.name ++ "\" shared via WebRTC"), mid⟩,
    ?_, rfl, rfl, rfl, rfl, rfl, rfl, rfl, rfl, rfl, rfl, rfl⟩
  simp [sendFile, hc]

/-- Concrete instantiation of the C10 theorem: one direct and one
constrained connection receiving a small file. -/
theorem sendFile_per_transport_witness :
    ∃ fm nm : FileMessage,
      (sendFile ⟨[⟨"p1", true, true⟩], [⟨"d1", true⟩], []⟩
          "Emergency Device" 4 "m4" (some ⟨"a.txt", 3, "text/plain", "QUJD"⟩)).2
        = FileOutcome.sent
            ([⟨"p1", true, true⟩].map (fun c => (RtcConn.peerId c, fm))
              ++ [⟨"d1", true⟩].map (fun c => (BtConn.deviceId c, nm))) 2 ∧
      fm.mtype = "file" ∧ fm.fileName = "a.txt" ∧ fm.fileSize = 3 ∧
      fm.fileType = "text/plain" ∧ fm.fdata = some "QUJD" ∧
      nm.mtype = "file-notification" ∧ nm.fileName = "a.txt" ∧
      nm.fileSize = 3 ∧ nm.fileType = "text/plain" ∧ nm.fdata = none ∧
      nm.note = some ("File \"" ++ "a.txt" ++ "\" shared via WebRTC") :=
  sendFile_per_transport ⟨[⟨"p1", true, true⟩], [⟨"d1", true⟩], []⟩
    "Emergency Device" 4 "m4" ⟨"a.txt", 3, "text/plain", "QUJD"⟩ (by decide)

/- ====================================================================
   Connection-quality probe: one tick of the 10-second interval set by
   `monitorConnectionQuality` (app.js 1451-1469).  For each direct
   connection whose handle reports open, a `ping` is sent; if that send
   throws, the connection is deleted from the direct registry.  The
   constrained registry is never touched by the probe.
   ==================================================================== -/

def qualityProbeTick (s : AppState) : AppState :=
  { s with connections :=
      s.connections.filter (fun c => !(c.isOpen && !c.sendOk)) }

/-- Claim C4: when the quality probe's ping fails on exactly one direct
connection (it is open and its send throws, while every other direct
connection either does not report open or sends successfully), exactly
that connection is removed: the rest of the direct registry, in order,
and the whole constrained registry are unchanged. -/
theorem qualityProbe_removes_only_failing (s : AppState)
    (pre post : List RtcConn) (c : RtcConn)
    (hsplit : s.connections = pre ++ c :: post)
    (hopen : c.isOpen = true) (hfail : c.sendOk = false)
    (hothers : ∀ d ∈ pre ++ post, d.isOpen = false ∨ d.sendOk = true) :
    (qualityProbeTick s).connections = pre ++ post ∧
    (qualityProbeTick s).bluetoothConnections = s.bluetoothConnections ∧
    (qualityProbeTick s).displayed = s.displayed := by
  refine ⟨?_, rfl, rfl⟩
  have hkeep : ∀ d ∈ pre ++ post, (!(d.isOpen && !d.sendOk)) = true := by
    intro d hd
    rcases hothers d hd with h | h <;> simp [h]
  simp only [qualityProbeTick, hsplit, List.filter_append, List.filter_cons,
    hopen, hfail]
  rw [List.filter_eq_self.mpr (fun d hd => hkeep d (List.mem_append_left _ hd)),
    List.filter_eq_self.mpr (fun d hd => hkeep d (List.mem_append_right _ hd))]
  simp

/-- Concrete instantiation of the C4 theorem: the middle of three direct
connections fails its ping and is the only one removed. -/
theorem qualityProbe_removes_only_failing_witness :
    (qualityProbeTick ⟨[⟨"p1", true, true⟩, ⟨"p2", true, false⟩,
        ⟨"p3", false, false⟩], [⟨"d1", true⟩], ["x"]⟩).connections
      = [⟨"p1", true, true⟩] ++ [⟨"p3", false, false⟩] ∧
    (qualityProbeTick ⟨[⟨"p1", true, true⟩, ⟨"p2", true, false⟩,
        ⟨"p3", false, false⟩], [⟨"d1", true⟩], ["x"]⟩).bluetoothConnections
      = [⟨"d1", true⟩] ∧
    (qualityProbeTick ⟨[⟨"p1", true, true⟩, ⟨"p2", true, false⟩,
        ⟨"p3", false, false⟩], [⟨"d1", true⟩], ["x"]⟩).displayed = ["x"] :=
  qualityProbe_removes_only_failing
    ⟨[⟨"p1", true, true⟩, ⟨"p2", true, false⟩, ⟨"p3", false, false⟩],
      [⟨"d1", true⟩], ["x"]⟩
    [⟨"p1", true, true⟩] [⟨"p3", false, false⟩] ⟨"p2", true, false⟩
    rfl rfl rfl (by decide)

/- ====================================================================
   Event-driven registry maintenance (claim C3).  Transport-level events
   and their handlers in app.js:
   - direct `open`  (setupConnection, 605-622): `connections.set`;
   - direct `close` (628-641) and `error` (643-648): `connections.delete`;
   - constrained GATT connect (connectBluetoothDevice, 238-244 and the
     generic path 274-280): `bluetoothConnections.set`;
   - `gattserverdisconnected` (handleBluetoothDisconnect, 373-380):
     presence check then `bluetoothConnections.delete`.
   JS `Map` keys are unique, so a registry is a duplicate-free key list;
   insertion position is irrelevant to the properties proved here.
   The transport side of each event also flips the underlying handle's
   open/connected flag, modelled by folding the same event list with
   `rtcApply` / `btApply` over a predicate on keys.
   ==================================================================== -/

inductive NetEvent where
  | rtcOpen (p : String)
  | rtcClose (p : String)
  | rtcError (p : String)
  | btConnected (d : String)
  | btDisconnected (d : String)
deriving DecidableEq

structure Registries where
  direct : List String
  bt : List String
deriving DecidableEq

def insertKey (k : String) (l : List String) : List String :=
  if k ∈ l then l else k :: l

def applyEvent (s : Registries) : NetEvent → Registries
  | NetEvent.rtcOpen p => { s with direct := insertKey p s.direct }
  | NetEvent.rtcClose p => { s with direct := s.direct.erase p }
  | NetEvent.rtcError p => { s with direct := s.direct.erase p }
  | NetEvent.btConnected d => { s with bt := insertKey d s.bt }
  | NetEvent.btDisconnected d =>
      { s with bt := if d ∈ s.bt then s.bt.erase d else s.bt }

def runEvents (evs : List NetEvent) : Registries :=
  evs.foldl applyEvent { direct := [], bt := [] }

/-- Transport truth for the direct handles: a handle reports open after
its `open` event and stops reporting open at its `close`/`error` event. -/
def rtcApply (g : String → Bool) : NetEvent → String → Bool
  | NetEvent.rtcOpen q => fun p => if p = q then true else g p
  | NetEvent.rtcClose q => fun p => if p = q then false else g p
  | NetEvent.rtcError q => fun p => if p = q then false else g p
  | _ => g

def rtcOpenAfter (evs : List NetEvent) : String → Bool :=
  evs.foldl rtcApply (fun _ => false)

/-- Transport truth for the constrained handles: a device reports
connected after its GATT connect and stops at `gattserverdisconnected`. -/
def btApply (g : String → Bool) : NetEvent → String → Bool
  | NetEvent.btConnected q => fun d => if d = q then true else g d
  | NetEvent.btDisconnected q => fun d => if d = q then false else g d
  | _ => g

def btConnectedAfter (evs : List NetEvent) : String → Bool :=
  evs.foldl btApply (fun _ => false)

theorem mem_insertKey (p k : String) (l : List String) :
    p ∈ insertKey k l ↔ p = k ∨ p ∈ l := by
  unfold insertKey
  by_cases h : k ∈ l
  · rw [if_pos h]
    constructor
    · exact Or.inr
    · rintro (rfl | hp)
      · exact h
      · exact hp
  · rw [if_neg h]
    exact List.mem_cons

theorem nodup_insertKey (k : String) (l : List String) (h : l.Nodup) :
    (insertKey k l).Nodup := by
  unfold insertKey
  by_cases hk : k ∈ l
  · rwa [if_pos hk]
  · rw [if_neg hk]
    exact List.nodup_cons.mpr ⟨hk, h⟩

theorem registry_lockstep_aux (evs : List NetEvent) :
    ∀ (s : Registries) (fr fb : String → Bool),
      s.direct.Nodup → s.bt.Nodup →
      (∀ p, p ∈ s.direct ↔ fr p = true) →
      (∀ d, d ∈ s.bt ↔ fb d = true) →
      (evs.foldl applyEvent s).direct.Nodup ∧
      (evs.foldl applyEvent s).bt.Nodup ∧
      (∀ p, p ∈ (evs.foldl applyEvent s).direct ↔ (evs.foldl rtcApply fr) p = true) ∧
      (∀ d, d ∈ (evs.foldl applyEvent s).bt ↔ (evs.foldl btApply fb) d = true) := by
  induction evs with
  | nil =>
    intro s fr fb h1 h2 h3 h4
    exact ⟨h1, h2, h3, h4⟩
  | cons e rest ih =>
    intro s fr fb h1 h2 h3 h4
    simp only [List.foldl_cons]
    cases e with
    | rtcOpen q =>
      refine ih _ _ _ (nodup_insertKey q s.direct h1) h2 ?_ h4
      intro p
      rw [applyEvent, rtcApply] at *
      rw [mem_insertKey]
      by_cases hpq : p = q
      · simp [hpq]
      · simp only [hpq, if_false, h3 p]
        tauto
    | rtcClose q =>
      refine ih _ _ _ (h1.erase q) h2 ?_ h4
      intro p
      rw [applyEvent, rtcApply]
      rw [h1.mem_erase_iff]
      by_cases hpq : p = q
      · simp [hpq]
      · simp [hpq, h3 p]
    | rtcError q =>
      refine ih _ _ _ (h1.erase q) h2 ?_ h4
      intro p
      rw [applyEvent, rtcApply]
      rw [h1.mem_erase_iff]
      by_cases hpq : p = q
      · simp [hpq]
      · simp [hpq, h3 p]
    | btConnected q =>
      refine ih _ _ _ h1 (nodup_insertKey q s.bt h2) h3 ?_
      intro d
      rw [applyEvent, btApply]
      rw [mem_insertKey]
      by_cases hdq : d = q
      · simp [hdq]
      · simp only [hdq, if_false, h4 d]
        tauto
    | btDisconnected q =>
      have hnodup : (if q ∈ s.bt then s.bt.erase q else s.bt).Nodup := by
        by_cases hq : q ∈ s.bt
        · rw [if_pos hq]; exact h2.erase q
        · rwa [if_neg hq]
      refine ih _ _ _ h1 hnodup h3 ?_
      intro d
      rw [applyEvent, btApply]
      by_cases hq : q ∈ s.bt
      · rw [if_pos hq, h2.mem_erase_iff]
        by_cases hdq : d = q
        · simp [hdq]
        · simp [hdq, h4 d]
      · rw [if_neg hq]
        by_cases hdq : d = q
        · subst hdq
          simp [hq]
        · simp [hdq, h4 d]

/-- Claim C3: after any sequence of transport open/close/error events,
starting from empty registries, a key is in the direct registry exactly
when its direct handle currently reports open, and a key is in the
constrained registry exactly when its device currently reports connected —
insertions happen at open events and removals only in the
close/error/disconnect handlers. -/
theorem registry_transport_lockstep (evs : List NetEvent) (p d : String) :
    (p ∈ (runEvents evs).direct ↔ rtcOpenAfter evs p = true) ∧
    (d ∈ (runEvents evs).bt ↔ btConnectedAfter evs d = true) := by
  have h := registry_lockstep_aux evs { direct := [], bt := [] }
    (fun _ => false) (fun _ => false) List.nodup_nil List.nodup_nil
    (by intro p; simp) (by intro d; simp)
  exact ⟨h.2.2.1 p, h.2.2.2 d⟩

/- ====================================================================
   Discovery scheduling (claim C7).  `startAutoDiscovery` (app.js
   1424-1448) arms a 1000 ms timer for the Bluetooth scan and a 3000 ms
   timer for the local-subnet probe (gated by `connectionPriority`;
   `loadSettings` fixes the defaults autoConnect = true and
   priority = "webrtc").  The `DOMContentLoaded` handler (1473-1481)
   constructs the app at t = 0 and only calls `startAutoDiscovery` from a
   2000 ms timer.  Entries are (absolute scheduled fire instant in ms
   from startup, action); `setTimeout` never fires before its delay.
   ==================================================================== -/

inductive DiscoveryAction where
  | btScan
  | subnetProbe
deriving DecidableEq

def startAutoDiscovery (t0 : Nat) (autoConnect : Bool) (priority : String) :
    List (Nat × DiscoveryAction) :=
  if autoConnect = false then []
  else
    (if priority = "bluetooth" ∨ priority = "webrtc" then
      [(t0 + 1000, DiscoveryAction.btScan)]
    else [])
      ++ (if priority = "local" ∨ priority = "webrtc" then
        [(t0 + 3000, DiscoveryAction.subnetProbe)]
      else [])

/-- The discovery timers armed by the `DOMContentLoaded` handler: the app
is constructed at t = 0 and `startAutoDiscovery` runs from a 2000 ms
timer, under the default settings autoConnect = true and
connectionPriority = "webrtc". -/
def domContentLoadedSchedule : List (Nat × DiscoveryAction) :=
  startAutoDiscovery 2000 true "webrtc"

/-- Claim C7 counterexample: counting from t = 0 at startup, the
Bluetooth scan is NOT scheduled at t = 1 s (it is scheduled at t = 3 s)
and the subnet probe is NOT scheduled at t = 3 s (it is scheduled at
t = 5 s), because the `DOMContentLoaded` handler defers
`startAutoDiscovery` itself by 2 s. -/
theorem discovery_stagger_counterexample :
    (1000, DiscoveryAction.btScan) ∉ domContentLoadedSchedule ∧
    (3000, DiscoveryAction.btScan) ∈ domContentLoadedSchedule ∧
    (3000, DiscoveryAction.subnetProbe) ∉ domContentLoadedSchedule ∧
    (5000, DiscoveryAction.subnetProbe) ∈ domContentLoadedSchedule := by
  decide

/-- Claim C7 amended: the discovery scans are staggered with the 1 s /
3 s offsets measured from the moment `startAutoDiscovery` runs, which the
startup handler defers by 2 s; so from t = 0 at startup the Bluetooth
scan is scheduled at t = 3 s and the local-subnet probe at t = 5 s, and
neither timer can fire earlier than its scheduled instant. -/
theorem discovery_stagger_amended :
    domContentLoadedSchedule
      = [(3000, DiscoveryAction.btScan), (5000, DiscoveryAction.subnetProbe)] ∧
    ∀ t0 : Nat, startAutoDiscovery t0 true "webrtc"
      = [(t0 + 1000, DiscoveryAction.btScan),
          (t0 + 3000, DiscoveryAction.subnetProbe)] := by
  refine ⟨by decide, fun t0 => ?_⟩
  unfold startAutoDiscovery
  rw [if_neg (by decide), if_pos (by decide), if_pos (by decide)]
  rfl

/- ====================================================================
   Handshakes (claim C8).  Three transport-open paths in app.js:
   - `setupConnection` open handler (605-622) calls `sendHandshake`
     (655-665): {type, deviceName, timestamp, peerId, connectionType} —
     the local peer id, but NO capability list;
   - `connectBluetoothDevice` (199-257) calls `sendBluetoothHandshake`
     (304-314) when the named emergency service is present:
     {type, deviceName, timestamp, deviceId, capabilities} — a capability
     list, but `deviceId` is the REMOTE device's handle;
   - `setupGenericBluetoothConnection` (259-302) registers the connection
     and returns without sending any handshake.
   ==================================================================== -/

structure Handshake where
  htype : String
  deviceName : String
  timestamp : Nat
  identity : Option String
  connectionType : Option String
  capabilities : Option (List String)
deriving DecidableEq

/-- Model of `sendHandshake` (app.js 655-665); `localPeerId = none` models a
failed WebRTC init (`this.peer` null), yielding `'bluetooth-only'`. -/
def sendHandshake (deviceName : String) (now : Nat)
    (localPeerId : Option String) : Handshake :=
  ⟨"handshake", deviceName, now, some (localPeerId.getD "bluetooth-only"),
    some "webrtc", none⟩

/-- Model of `sendBluetoothHandshake` (app.js 304-314); `remoteDeviceId` is
`device.id` of the just-connected remote device. -/
def sendBluetoothHandshake (deviceName : String) (now : Nat)
    (remoteDeviceId : String) : Handshake :=
  ⟨"bluetooth-handshake", deviceName, now, some remoteDeviceId, none,
    some ["messaging", "emergency", "file-transfer"]⟩

/-- Handshakes sent on a direct-transport open (`setupConnection`'s
`open` handler always calls `sendHandshake`). -/
def rtcOpenHandshakes (deviceName : String) (now : Nat)
    (localPeerId : Option String) : List Handshake :=
  [sendHandshake deviceName now localPeerId]

/-- Handshakes sent on a constrained-transport open:
`connectBluetoothDevice` sends one only when the named emergency service
was found; the generic fallback path sends none. -/
def bluetoothOpenHandshakes (deviceName : String) (now : Nat)
    (remoteDeviceId : String) (serviceFound : Bool) : List Handshake :=
  if serviceFound then [sendBluetoothHandshake deviceName now remoteDeviceId]
  else []

/-- Claim C8 counterexample: on a concrete direct-transport open the
handshake carries no capability list; on a concrete constrained open the
handshake's identity field is the remote device's handle, not the local
identity "emergency-k2-abc123"; and a generic-fallback constrained open
sends no handshake at all. -/
theorem handshake_claim_counterexample :
    (sendHandshake "Emergency Device" 1 (some "emergency-k2-abc123")).capabilities
      = none ∧
    (sendBluetoothHandshake "Emergency Device" 1 "remote-bt-device").identity
      = some "remote-bt-device" ∧
    some "remote-bt-device" ≠ some "emergency-k2-abc123" ∧
    bluetoothOpenHandshakes "Emergency Device" 1 "remote-bt-device" false = [] := by
  refine ⟨rfl, rfl, by decide, rfl⟩

/-- Claim C8 amended: on every direct-transport open exactly one
handshake is sent, carrying the display name, timestamp, the local peer
identity and the connection type but no capability list; on a
constrained-transport open via the named emergency service exactly one
handshake is sent, carrying the display name, timestamp and a capability
list but the remote device's id as its identity field; on a
generic-fallback constrained open no handshake is sent. -/
theorem handshake_per_open (deviceName : String) (now : Nat)
    (pid rid : String) :
    (∃ h, rtcOpenHandshakes deviceName now (some pid) = [h] ∧
      h.htype = "handshake" ∧ h.deviceName = deviceName ∧
      h.timestamp = now ∧ h.identity = some pid ∧
      h.connectionType = some "webrtc" ∧ h.capabilities = none) ∧
    (∃ h, bluetoothOpenHandshakes deviceName now rid true = [h] ∧
      h.htype = "bluetooth-handshake" ∧ h.deviceName = deviceName ∧
      h.timestamp = now ∧ h.identity = some rid ∧
      h.capabilities = some ["messaging", "emergency", "file-transfer"]) ∧
    bluetoothOpenHandshakes deviceName now rid false = [] := by
  refine ⟨⟨sendHandshake deviceName now (some pid),
      rfl, rfl, rfl, rfl, rfl, rfl, rfl⟩,
    ⟨sendBluetoothHandshake deviceName now rid, rfl, rfl, rfl, rfl, rfl, rfl⟩,
    rfl⟩

/- ====================================================================
   Persistence server (claim C9): `app.put('/api/emergencies/:id')` in
   the Express server.  The stored array is read from the flat JSON file,
   `findIndex(e => e.id == id)` locates the first record with the given
   id, only its `status` field is reassigned before the array is written
   back and the updated record is returned; an unmatched id leaves the
   file unwritten and answers 404.  `payload` stands for the spread
   client fields (`...req.body`), untouched by the update.
   ==================================================================== -/

structure Emergency where
  eid : Nat
  payload : String
  timestamp : String
  status : String
deriving DecidableEq

/-- The PUT handler: returns the stored list after the request and
`some` updated record (HTTP 200 body), or `none` for HTTP 404. -/
def putEmergencyStatus : List Emergency → Nat → String →
    List Emergency × Option Emergency
  | [], _, _ => ([], none)
  | e :: rest, i, st =>
    if e.eid = i then
      ({ e with status := st } :: rest, some { e with status := st })
    else
      let r := putEmergencyStatus rest i st
      (e :: r.1, r.2)

/-- Claim C9: the PUT responds 404 exactly when no stored emergency has
the given id, in which case the store is unchanged; otherwise the first
matching record has only its status field replaced — every other record,
and its own other fields, unchanged — and that updated record is
returned. -/
theorem putEmergencyStatus_spec (l : List Emergency) (i : Nat) (st : String) :
    ((putEmergencyStatus l i st).2 = none ↔ ∀ e ∈ l, e.eid ≠ i) ∧
    ((putEmergencyStatus l i st).2 = none → (putEmergencyStatus l i st).1 = l) ∧
    (∀ r, (putEmergencyStatus l i st).2 = some r →
      ∃ pre e post, l = pre ++ e :: post ∧ (∀ x ∈ pre, x.eid ≠ i) ∧
        e.eid = i ∧ r = { e with status := st } ∧
        (putEmergencyStatus l i st).1 = pre ++ { e with status := st } :: post) := by
  induction l with
  | nil =>
    refine ⟨by simp [putEmergencyStatus], fun _ => rfl, ?_⟩
    intro r hr
    simp [putEmergencyStatus] at hr
  | cons e rest ih =>
    by_cases he : e.eid = i
    · have hstep : putEmergencyStatus (e :: rest) i st
          = ({ e with status := st } :: rest, some { e with status := st }) := by
        simp [putEmergencyStatus, he]
      refine ⟨?_, ?_, ?_⟩
      · constructor
        · intro h
          rw [hstep] at h
          simp at h
        · intro h
          exact absurd he (h e (List.mem_cons_self e rest))
      · intro h
        rw [hstep] at h
        simp at h
      · intro r hr
        rw [hstep] at hr
        simp only [Option.some_inj] at hr
        refine ⟨[], e, rest, rfl, by simp, he, hr.symm, ?_⟩
        rw [hstep]
        rfl
    · have hstep1 : (putEmergencyStatus (e :: rest) i st).1
          = e :: (putEmergencyStatus rest i st).1 := by
        simp [putEmergencyStatus, he]
      have hstep2 : (putEmergencyStatus (e :: rest) i st).2
          = (putEmergencyStatus rest i st).2 := by
        simp [putEmergencyStatus, he]
      refine ⟨?_, ?_, ?_⟩
      · rw [hstep2, ih.1]
        constructor
        · intro h x hx
          rcases List.mem_cons.mp hx with rfl | hx'
          · exact he
          · exact h x hx'
        · intro h x hx
          exact h x (List.mem_cons_of_mem e hx)
      · intro h
        rw [hstep2] at h
        rw [hstep1, ih.2.1 h]
      · intro r hr
        rw [hstep2] at hr
        obtain ⟨pre, x, post, hl, hpre, hx, hrx, hres⟩ := ih.2.2 r hr
        refine ⟨e :: pre, x, post, by rw [hl]; rfl, ?_, hx, hrx, ?_⟩
        · intro y hy
          rcases List.mem_cons.mp hy with rfl | hy'
          · exact he
          · exact hpre y hy'
        · rw [hstep1, hres]
          rfl

/-- Concrete instantiation of the C9 theorem: updating id 2 in a
two-record store changes only that record's status and returns it. -/
theorem putEmergencyStatus_spec_witness :
    ∃ pre e post,
      ([⟨1, "flood", "t1", "pending"⟩, ⟨2, "fire", "t2", "pending"⟩]
          : List Emergency) = pre ++ e :: post ∧
      (∀ x ∈ pre, Emergency.eid x ≠ 2) ∧ e.eid = 2 ∧
      (⟨2, "fire", "t2", "resolved"⟩ : Emergency) = { e with status := "resolved" } ∧
      (putEmergencyStatus
          [⟨1, "flood", "t1", "pending"⟩, ⟨2, "fire", "t2", "pending"⟩]
          2 "resolved").1
        = pre ++ { e with status := "resolved" } :: post :=
  (putEmergencyStatus_spec
      [⟨1, "flood", "t1", "pending"⟩, ⟨2, "fire", "t2", "pending"⟩]
      2 "resolved").2.2
    ⟨2, "fire", "t2", "resolved"⟩ (by decide)
